import Mathlib

/-!
Shallow embedding of the Go package `optional` (martinohmann/optional),
file `optional.go`. The package stores payloads in a dynamically typed
value box (Go `interface{}`); we model such boxed values with the
inductive `Value`, which records the runtime category (kind) of the
boxed value, whether a reference-like value is the null reference, a
type tag (distinct `Nat`s stand for distinct Go types of the same
kind), and an identity tag for reference-like values. A non-nil
`*Optional` pointer is modelled by `OptRef`: either the shared
`emptyOptional` singleton (optional.go line 9) or a freshly allocated
`&Optional{value}` cell, tagged with its address. A nil `*Optional`
stored inside an interface value is `Value.optNilV`. Functions that can
panic in Go return `Except GoPanic _`; allocating constructors take the
fresh address chosen by the allocator as an extra argument.
-/

namespace OptionalGo

/-- Panics the package (or the Go runtime on its behalf) can raise. -/
inductive GoPanic : Type where
  /-- panic in `Of`: "optional.Of: value must not be nil" (line 151). -/
  | valueRequired : GoPanic
  /-- panic in `Get`: "optional.Get: optional has no value" (line 95). -/
  | emptyValue : GoPanic
  /-- panic in `FlatMap`: "optional.FlatMap: mapper func returned nil *Optional" (line 83). -/
  | mapperNilOptional : GoPanic
  /-- runtime panic of `reflect.Value.IsNil` when called on a value of
  Array kind: "reflect: call of reflect.Value.IsNil on array Value". -/
  | isNilOnArray : GoPanic
  /-- runtime panic of `reflect.Value.Set` when the destination is not
  addressable writable storage (destination not a pointer, a nil
  pointer, or the untyped nil interface). -/
  | notWritable : GoPanic
  /-- runtime panic of `reflect.Value.Set` when the source runtime type
  is not assignable to the destination storage type. -/
  | typeMismatch : GoPanic
  /-- runtime panic when `==` compares two interface values of an
  identical non-comparable dynamic type (func, map or slice kind). -/
  | uncomparable : GoPanic
  /-- runtime nil-pointer dereference. -/
  | nilDeref : GoPanic
  /-- panic in `OrElsePanic` with the caller-supplied message (line 220). -/
  | message (s : String) : GoPanic
deriving DecidableEq, Repr

/-- Decidable equality of `Except` results, so that concrete runs of
the embedded operations can be checked by evaluation. -/
instance {ε α : Type} [DecidableEq ε] [DecidableEq α] :
    DecidableEq (Except ε α) := fun a b =>
  match a, b with
  | .error e, .error f =>
    if h : e = f then .isTrue (by rw [h])
    else .isFalse (by simp [h])
  | .ok x, .ok y =>
    if h : x = y then .isTrue (by rw [h])
    else .isFalse (by simp [h])
  | .error _, .ok _ => .isFalse (fun hc => Except.noConfusion hc)
  | .ok _, .error _ => .isFalse (fun hc => Except.noConfusion hc)

/-- A Go `interface{}` value, by runtime category. Reference-like
categories carry `ref : Option Nat`: `none` is the null reference of
that category, `some i` a non-null reference with identity `i`. The
`ty` tag identifies the Go type within the kind. `optNilV`, `optEmptyV`
and `optAllocV` are `*Optional` values held in an interface: the typed
nil pointer, the shared empty singleton, and a pointer to an allocated
cell at address `addr` holding `value`. -/
inductive Value : Type where
  /-- the untyped nil interface. -/
  | nil : Value
  | intV (n : Int) : Value
  | strV (s : String) : Value
  | boolV (b : Bool) : Value
  /-- a typed pointer (Kind Ptr). -/
  | ptrV (ty : Nat) (ref : Option Nat) : Value
  /-- a map value (Kind Map). -/
  | mapV (ty : Nat) (ref : Option Nat) : Value
  /-- a slice value (Kind Slice). -/
  | sliceV (ty : Nat) (ref : Option Nat) : Value
  /-- a channel value (Kind Chan). -/
  | chanV (ty : Nat) (ref : Option Nat) : Value
  /-- a function value (Kind Func). -/
  | funcV (ty : Nat) (ref : Option Nat) : Value
  /-- an array value (Kind Array); arrays are never nil in Go. The `id`
  tag stands for the array's contents. -/
  | arrayV (ty : Nat) (id : Nat) : Value
  /-- a plain struct value of a comparable struct type. -/
  | structV (ty : Nat) (id : Nat) : Value
  /-- a nil `*Optional` (typed nil pointer to the container type). -/
  | optNilV : Value
  /-- the shared `emptyOptional` singleton pointer. -/
  | optEmptyV : Value
  /-- a non-nil `*Optional` pointing at the cell at `addr` that holds
  `value`. -/
  | optAllocV (addr : Nat) (value : Value) : Value
deriving DecidableEq, Repr

/-- A non-nil `*Optional` pointer, the receiver/return type of the API.
`emptyOpt` is the package-level `emptyOptional` singleton (line 9);
`alloc addr value` is a `&Optional{value}` cell allocated at `addr`.
Nil `*Optional` pointers occur only as interface values
(`Value.optNilV`); the API never returns one. -/
inductive OptRef : Type where
  | emptyOpt : OptRef
  | alloc (addr : Nat) (value : Value) : OptRef
deriving DecidableEq, Repr

/-- The interface value obtained by boxing a `*Optional` pointer. -/
def OptRef.toValue : OptRef → Value
  | .emptyOpt => .optEmptyV
  | .alloc a v => .optAllocV a v

/-- The `value` field of the pointed-to Optional struct. The singleton
`emptyOptional = &Optional{}` has a nil interface in its field. -/
def OptRef.value : OptRef → Value
  | .emptyOpt => .nil
  | .alloc _ v => v

/-- `isNil` (optional.go lines 241-252). `value == nil` catches the
untyped nil; then the kind switch lists Ptr, Map, Array, Chan, Slice
and calls `reflect.ValueOf(value).IsNil()` for those; every other kind
(including Func) falls to `default: return false`. `IsNil` panics on
Array kind, since arrays are not a nilable category. A `*Optional` has
kind Ptr, so it goes through the Ptr case. -/
def isNil : Value → Except GoPanic Bool
  | .nil => .ok true
  | .ptrV _ r => .ok r.isNone
  | .mapV _ r => .ok r.isNone
  | .arrayV _ _ => .error .isNilOnArray
  | .chanV _ r => .ok r.isNone
  | .sliceV _ r => .ok r.isNone
  | .optNilV => .ok true
  | .optEmptyV => .ok false
  | .optAllocV _ _ => .ok false
  | .funcV _ _ => .ok false
  | .intV _ => .ok false
  | .strV _ => .ok false
  | .boolV _ => .ok false
  | .structV _ _ => .ok false

/-- `Empty` (lines 39-41): returns the shared singleton. -/
def Empty : OptRef := .emptyOpt

/-- `Of` (lines 149-155): panics with the ValueRequired message if
`isNil(value)`, otherwise allocates `&Optional{value}` (at the fresh
address `addr` chosen by the allocator). A panic inside `isNil`
propagates. -/
def Of (value : Value) (addr : Nat) : Except GoPanic OptRef :=
  match isNil value with
  | .error p => .error p
  | .ok true => .error .valueRequired
  | .ok false => .ok (.alloc addr value)

/-- `OfNilable` (lines 159-165): returns `Empty()` if `isNil(value)`,
otherwise allocates `&Optional{value}` at the fresh address `addr`. A
panic inside `isNil` propagates. -/
def OfNilable (value : Value) (addr : Nat) : Except GoPanic OptRef :=
  match isNil value with
  | .error p => .error p
  | .ok true => .ok Empty
  | .ok false => .ok (.alloc addr value)

/-- `IsEmpty` (lines 127-129): `o.value == nil`, an interface
comparison against the untyped nil (never panics). -/
def OptRef.IsEmpty (o : OptRef) : Bool := o.value == Value.nil

/-- `IsPresent` (lines 133-135): `o.value != nil`. -/
def OptRef.IsPresent (o : OptRef) : Bool := o.value != Value.nil

/-- `Get` (lines 93-99): panics with the EmptyValue message when empty,
otherwise returns the payload. -/
def OptRef.Get (o : OptRef) : Except GoPanic Value :=
  if o.IsEmpty then .error .emptyValue else .ok o.value

/-- `Filter` (lines 62-68): returns the receiver itself when it is
empty or the predicate matches, otherwise returns `Empty()`. -/
def OptRef.Filter (o : OptRef) (predicate : Value → Bool) : OptRef :=
  if o.IsEmpty || predicate o.value then o else Empty

/-- `Map` (lines 139-145): returns the (empty) receiver when empty,
otherwise `OfNilable(mapper(o.value))` allocating at `addr`. -/
def OptRef.Map (o : OptRef) (mapper : Value → Value) (addr : Nat) :
    Except GoPanic OptRef :=
  if o.IsEmpty then .ok o else OfNilable (mapper o.value) addr

/-- `FlatMap` (lines 75-90): returns the (empty) receiver when empty;
otherwise a type switch on `mapper(o.value)`: a `*Optional` result is
returned verbatim, except that a nil `*Optional` panics; any other
result goes through `OfNilable` (allocating at `addr`). The untyped nil
does not match the `*Optional` case and falls to the default branch. -/
def OptRef.FlatMap (o : OptRef) (mapper : Value → Value) (addr : Nat) :
    Except GoPanic OptRef :=
  if o.IsEmpty then .ok o
  else
    match mapper o.value with
    | .optNilV => .error .mapperNilOptional
    | .optEmptyV => .ok .emptyOpt
    | .optAllocV a v => .ok (.alloc a v)
    | v => OfNilable v addr

/-- `Or` (lines 170-176): returns the receiver when present, otherwise
`Of(supplier())` allocating at `addr`. -/
def OptRef.Or (o : OptRef) (supplier : Unit → Value) (addr : Nat) :
    Except GoPanic OptRef :=
  if o.IsPresent then .ok o else Of (supplier ()) addr

/-- `OrElse` (lines 180-186). -/
def OptRef.OrElse (o : OptRef) (other : Value) : Value :=
  if o.IsPresent then o.value else other

/-- `OrElseGet` (lines 197-203). -/
def OptRef.OrElseGet (o : OptRef) (supplier : Unit → Value) : Value :=
  if o.IsPresent then o.value else supplier ()

/-- `OrElsePanic` (lines 215-221). -/
def OptRef.OrElsePanic (o : OptRef) (msg : String) : Except GoPanic Value :=
  if o.IsPresent then .ok o.value else .error (.message msg)

/-- The Go dynamic type of an interface value (`none` for the untyped
nil, which carries no type). All `*Optional` values share one type. -/
inductive Ty : Type where
  | tint | tstr | tbool
  | tptr (t : Nat) | tmap (t : Nat) | tslice (t : Nat)
  | tchan (t : Nat) | tfunc (t : Nat)
  | tarray (t : Nat) | tstruct (t : Nat)
  | topt
deriving DecidableEq, Repr

/-- Dynamic type of a boxed value. -/
def tyOf : Value → Option Ty
  | .nil => none
  | .intV _ => some .tint
  | .strV _ => some .tstr
  | .boolV _ => some .tbool
  | .ptrV t _ => some (.tptr t)
  | .mapV t _ => some (.tmap t)
  | .sliceV t _ => some (.tslice t)
  | .chanV t _ => some (.tchan t)
  | .funcV t _ => some (.tfunc t)
  | .arrayV t _ => some (.tarray t)
  | .structV t _ => some (.tstruct t)
  | .optNilV => some .topt
  | .optEmptyV => some .topt
  | .optAllocV _ _ => some .topt

/-- Whether values of a Go type support `==`. Func, map and slice types
are not comparable; pointers, channels, basic types, comparable structs
and arrays of comparable elements (the arrays we model) are. -/
def comparableTy : Ty → Bool
  | .tmap _ => false
  | .tslice _ => false
  | .tfunc _ => false
  | _ => true

/-- Go interface equality `a == b`: two nil interfaces are equal; a nil
and a non-nil interface are unequal; different dynamic types are
unequal; an identical non-comparable dynamic type panics; otherwise the
dynamic values are compared (for reference kinds, by reference
identity, which structural equality of `Value` captures). -/
def ifaceEq (a b : Value) : Except GoPanic Bool :=
  match tyOf a, tyOf b with
  | none, none => .ok true
  | none, some _ => .ok false
  | some _, none => .ok false
  | some ta, some tb =>
    if ta = tb then
      if comparableTy ta then .ok (a == b) else .error .uncomparable
    else .ok false

/-- `Equals` (lines 46-57): first `other == o` (interface against a
non-nil `*Optional`: equal only when `other` boxes the same pointer,
never a panic); then the type assertion `other.(*Optional)` (a boxed
nil `*Optional` passes the assertion, and the subsequent `opt.value`
dereference then faults); finally `opt.value == o.value`, an interface
comparison that can panic on non-comparable dynamic types. -/
def OptRef.Equals (o : OptRef) (other : Value) : Except GoPanic Bool :=
  if other == o.toValue then .ok true
  else
    match other with
    | .optNilV => .error .nilDeref
    | .optEmptyV => ifaceEq Value.nil o.value
    | .optAllocV _ v => ifaceEq v o.value
    | _ => .ok false

/-- A caller-owned destination, as seen through `reflect`: whether it
is writable storage (a non-nil pointer the caller can write through),
the declared storage type, and the current contents. -/
structure Dest : Type where
  writable : Bool
  ty : Ty
  contents : Value
deriving DecidableEq, Repr

/-- `into` (lines 256-261): `reflect.Indirect(reflect.ValueOf(dst))`
followed by `dstVal.Set(srcVal)`. When `dst` is not a pointer, is a nil
pointer, or is the nil interface, the indirected value is not
addressable storage and `Set` panics (`notWritable`); assignability of
the source's dynamic type to the destination's storage type is modelled
as type equality, and `Set` panics with a type error when it fails (a
nil interface source has no type and also fails); otherwise the source
value overwrites the destination contents. -/
def into (src : Value) (dst : Dest) : Except GoPanic Dest :=
  if dst.writable = false then .error .notWritable
  else
    match tyOf src with
    | none => .error .typeMismatch
    | some t =>
      if t = dst.ty then .ok { dst with contents := src }
      else .error .typeMismatch

/-- `GetInto` (lines 104-106): `into(o.Get(), dst)`; the `Get` panic on
an empty receiver propagates. -/
def OptRef.GetInto (o : OptRef) (dst : Dest) : Except GoPanic Dest :=
  match o.Get with
  | .error p => .error p
  | .ok v => into v dst

/-- `OrElseInto` (lines 191-193): `into(o.OrElse(other), dst)`. -/
def OptRef.OrElseInto (o : OptRef) (other : Value) (dst : Dest) :
    Except GoPanic Dest :=
  into (o.OrElse other) dst

/-- An API-produced `*Optional`: the empty singleton, or an allocated
cell with a non-nil payload. `Of`/`OfNilable` only ever build these. -/
def canonical : OptRef → Bool
  | .emptyOpt => true
  | .alloc _ v => v != Value.nil

/-- A mapper result that does not smuggle in a foreign empty container:
if it is a boxed non-nil `*Optional`, that container's payload is not
the nil interface. -/
def canonicalResult : Value → Bool
  | .optAllocV _ v => v != Value.nil
  | _ => true

/-- A value on which `isNil` answers `false` is not the nil interface. -/
theorem isNil_false_ne_nil {v : Value} (h : isNil v = .ok false) :
    v ≠ Value.nil := by
  intro hv; subst hv; simp [isNil] at h

/-- Claim C1. The claim asserts that a typed nil function value is
treated as null-like: `OfNilable` of a nil func should be empty and
`Of` of a nil func should fail with ValueRequired. The code does the
opposite: the kind switch in `isNil` omits Func, so a nil func falls to
the default branch and counts as a regular value. This theorem
evaluates the code at the failing input, a typed nil func: `isNil`
answers `false`, `OfNilable` yields a present Optional and `Of`
succeeds instead of failing. The other five categories named by the
claim (the untyped nil, a typed nil pointer, nil map, nil slice, nil
channel) behave as the claim says, which is also recorded here. -/
theorem c1_nil_func_not_detected :
    isNil (.funcV 0 none) = .ok false
    ∧ OfNilable (.funcV 0 none) 1 = .ok (.alloc 1 (.funcV 0 none))
    ∧ (OptRef.alloc 1 (.funcV 0 none)).IsEmpty = false
    ∧ Of (.funcV 0 none) 1 = .ok (.alloc 1 (.funcV 0 none))
    ∧ isNil Value.nil = .ok true
    ∧ isNil (.ptrV 0 none) = .ok true
    ∧ isNil (.mapV 0 none) = .ok true
    ∧ isNil (.sliceV 0 none) = .ok true
    ∧ isNil (.chanV 0 none) = .ok true
    ∧ OfNilable (.ptrV 0 none) 1 = .ok .emptyOpt
    ∧ Of (.ptrV 0 none) 1 = .error .valueRequired := by
  decide

/-- Claim C2. The claim asserts that `OfNilable` never fails,
explicitly including array inputs. The code lists Kind Array in the
`isNil` switch and calls `reflect.Value.IsNil` on it, which panics at
runtime because arrays are not a nilable category; the panic propagates
out of `OfNilable` (and `Of`). This theorem evaluates the code at the
failing input, an arbitrary array value. -/
theorem c2_ofnilable_array_panics :
    isNil (.arrayV 0 0) = .error .isNilOnArray
    ∧ OfNilable (.arrayV 0 0) 1 = .error .isNilOnArray
    ∧ Of (.arrayV 0 0) 1 = .error .isNilOnArray := by
  decide

/-- Claim C3. The claim quantifies over every non-null-like value, and
an array value is not null-like (arrays are never nil, and no
reference-like category's null covers them), yet `Of` panics on it:
`isNil` reaches reflect IsNil through its Array case, which always
panics on arrays. This theorem evaluates the code at the failing
input, an array of contents tag 1, where `Of` propagates the reflect
panic instead of returning a present Optional; it also records that on
a value the code does recognise as non-nil (a string) the claimed
behavior — success, presence, and `Get` returning exactly the payload —
does hold. -/
theorem c3_of_array_value_panics :
    Of (.arrayV 0 1) 2 = .error .isNilOnArray
    ∧ Of (.strV "ok") 2 = .ok (.alloc 2 (.strV "ok"))
    ∧ (OptRef.alloc 2 (.strV "ok")).IsPresent = true
    ∧ (OptRef.alloc 2 (.strV "ok")).Get = .ok (.strV "ok") := by
  decide

/-- Claim C4: when the mapper `f` sends the (non-null-like) payload `x`
to a boxed present Optional — the very pointer `Of` would produce for
the non-null-like `y` at address `a2` — `FlatMap` returns that pointer
itself, un-rewrapped (it equals `Of y a2`, address included), whereas
`Map` re-wraps it: the result is what `Of` produces at the fresh
address `a3` when handed the boxed Optional as payload, an
Optional-of-Optional. -/
theorem c4_flatmap_map_asymmetry (x y : Value) (f : Value → Value)
    (a1 a2 a3 : Nat)
    (hx : isNil x = .ok false) (hy : isNil y = .ok false)
    (hf : f x = .optAllocV a2 y) :
    Of x a1 = .ok (.alloc a1 x)
    ∧ (OptRef.alloc a1 x).FlatMap f a3 = Of y a2
    ∧ Of y a2 = .ok (.alloc a2 y)
    ∧ (OptRef.alloc a1 x).Map f a3 = Of (.optAllocV a2 y) a3
    ∧ Of (.optAllocV a2 y) a3 = .ok (.alloc a3 (.optAllocV a2 y)) := by
  have hvx : x ≠ Value.nil := isNil_false_ne_nil hx
  refine ⟨by simp [Of, hx], ?_, by simp [Of, hy], ?_, by simp [Of, isNil]⟩
  · simp [OptRef.FlatMap, OptRef.IsEmpty, OptRef.value, hvx, hf, Of, hy]
  · simp [OptRef.Map, OptRef.IsEmpty, OptRef.value, hvx, hf, Of,
      OfNilable, isNil]

/-- Witness for C4 at concrete strings and a concrete mapper. -/
theorem c4_flatmap_map_asymmetry_witness :
    Of (.strV "foo") 0 = .ok (.alloc 0 (.strV "foo"))
    ∧ (OptRef.alloc 0 (.strV "foo")).FlatMap
        (fun v => if v == .strV "foo" then .optAllocV 5 (.strV "bar")
                  else Value.nil) 7 = Of (.strV "bar") 5
    ∧ Of (.strV "bar") 5 = .ok (.alloc 5 (.strV "bar"))
    ∧ (OptRef.alloc 0 (.strV "foo")).Map
        (fun v => if v == .strV "foo" then .optAllocV 5 (.strV "bar")
                  else Value.nil) 7 = Of (.optAllocV 5 (.strV "bar")) 7
    ∧ Of (.optAllocV 5 (.strV "bar")) 7
        = .ok (.alloc 7 (.optAllocV 5 (.strV "bar"))) :=
  c4_flatmap_map_asymmetry (.strV "foo") (.strV "bar") _ 0 5 7
    (by decide) (by decide) (by decide)

/-- The only panic `isNil` can raise is the array panic. -/
theorem isNil_error_eq {v : Value} {p : GoPanic}
    (h : isNil v = .error p) : p = .isNilOnArray := by
  cases v <;> simp [isNil] at h
  exact h.symm

/-- `OfNilable` never raises the FlatMap mapper panic: its only
possible failure is the array panic out of `isNil`. -/
theorem ofNilable_ne_mapper_panic (v : Value) (a : Nat) :
    OfNilable v a ≠ .error .mapperNilOptional := by
  intro hc
  rcases h : isNil v with p | b
  · simp only [OfNilable, h] at hc
    injection hc with hc'
    exact GoPanic.noConfusion ((isNil_error_eq h).symm.trans hc')
  · cases b <;> simp only [OfNilable, h] at hc <;>
      exact Except.noConfusion hc

/-- Claim C5. The claim's panic clause holds in the code (on a present
receiver, `FlatMap` raises MapperReturnedNullContainer exactly for a
nil-container mapper result), but its other half — that an ordinary
null-like mapper payload never fails and produces the EMPTY Optional —
does not: a typed nil func is an ordinary null-like payload, yet
because `isNil` omits Func, `FlatMap`'s default branch hands it to
`OfNilable`, which wraps it into a PRESENT Optional. This theorem
evaluates the code at the failing input (a mapper returning a typed nil
func on a present receiver) and, for contrast, at the cases the claim
gets right: a nil-container mapper result panics, and a typed nil
pointer result yields the empty singleton. -/
theorem c5_flatmap_nil_func_result :
    (OptRef.alloc 0 (.strV "a")).FlatMap (fun _ => .funcV 0 none) 1
        = .ok (.alloc 1 (.funcV 0 none))
    ∧ (OptRef.alloc 1 (.funcV 0 none)).IsEmpty = false
    ∧ (OptRef.alloc 0 (.strV "a")).FlatMap (fun _ => .optNilV) 1
        = .error .mapperNilOptional
    ∧ (OptRef.alloc 0 (.strV "a")).FlatMap (fun _ => .ptrV 0 none) 1
        = .ok Empty := by
  decide

/-- Claim C6. The claim says `Or` fails with ValueRequired whenever the
supplier's result is null-like. A supplier returning a typed nil func
returns a null-like value, yet because `isNil` omits Func, the
`Of(supplier())` call succeeds and `Or` answers a PRESENT Optional
wrapping the nil func. This theorem evaluates the code at the failing
input (the empty singleton with a nil-func supplier) and, for
contrast, at the cases the claim gets right: the concrete
`Empty().Or` of an untyped-nil supplier fails with ValueRequired, a
nil-pointer supplier fails likewise, and a present receiver is
returned unchanged. -/
theorem c6_or_nil_func_supplier :
    Empty.Or (fun _ => .funcV 0 none) 2 = .ok (.alloc 2 (.funcV 0 none))
    ∧ (OptRef.alloc 2 (.funcV 0 none)).IsEmpty = false
    ∧ Empty.Or (fun _ => Value.nil) 2 = .error .valueRequired
    ∧ Empty.Or (fun _ => .ptrV 0 none) 2 = .error .valueRequired
    ∧ (OptRef.alloc 0 (.strV "bar")).Or (fun _ => .strV "foo") 2
        = .ok (.alloc 0 (.strV "bar")) := by
  decide

/-- Claim C7: `Get` returns the wrapped payload on a present receiver
and fails with EmptyValue on an empty one, and these are the only
outcomes: a returned value only happens on a present receiver and is
exactly the payload, and a failure only happens on an empty receiver
and is exactly EmptyValue. -/
theorem c7_get_spec (o : OptRef) :
    (o.IsPresent = true → o.Get = .ok o.value)
    ∧ (o.IsEmpty = true → o.Get = .error .emptyValue)
    ∧ (∀ v, o.Get = .ok v → o.IsPresent = true ∧ v = o.value)
    ∧ (∀ p, o.Get = .error p → o.IsEmpty = true ∧ p = .emptyValue) := by
  have hdual : o.IsEmpty = !o.IsPresent := by
    simp [OptRef.IsEmpty, OptRef.IsPresent, bne]
  refine ⟨?_, ?_, ?_, ?_⟩
  · intro h; simp [OptRef.Get, hdual, h]
  · intro h; simp [OptRef.Get, h]
  · intro v hv
    by_cases h : o.IsEmpty = true
    · simp [OptRef.Get, h] at hv
    · simp [OptRef.Get, h] at hv
      exact ⟨by simp [hdual] at h ⊢; simp [h], hv.symm⟩
  · intro p hp
    by_cases h : o.IsEmpty = true
    · simp [OptRef.Get, h] at hp
      exact ⟨h, hp.symm⟩
    · simp [OptRef.Get, h] at hp

/-- Witness for C7: both outcomes at concrete receivers. -/
theorem c7_get_spec_witness :
    (OptRef.alloc 0 (.intV 42)).Get = .ok (.intV 42)
    ∧ OptRef.emptyOpt.Get = .error .emptyValue := by
  refine ⟨?_, ?_⟩
  · exact (c7_get_spec (.alloc 0 (.intV 42))).1 (by decide)
  · exact (c7_get_spec .emptyOpt).2.1 (by decide)

/-- Claim C8: the destination-write primitive fails with the
not-writable panic when the destination is not writable storage, fails
with the type-mismatch panic when the source's runtime type does not
match the destination's storage type, and otherwise overwrites the
destination contents with the source value; consequently for a
compatible writable destination, `Of(v).GetInto(&dst)` leaves `dst`
holding exactly `v`. -/
theorem c8_into_spec (src : Value) (dst : Dest) (v : Value) (a : Nat) :
    (dst.writable = false → into src dst = .error .notWritable)
    ∧ (dst.writable = true → tyOf src ≠ some dst.ty →
        into src dst = .error .typeMismatch)
    ∧ (dst.writable = true → tyOf src = some dst.ty →
        into src dst = .ok { dst with contents := src })
    ∧ (isNil v = .ok false → dst.writable = true →
        tyOf v = some dst.ty →
        Of v a = .ok (.alloc a v)
        ∧ (OptRef.alloc a v).GetInto dst
            = .ok { dst with contents := v }) := by
  refine ⟨?_, ?_, ?_, ?_⟩
  · intro h; simp [into, h]
  · intro h1 h2
    rcases ht : tyOf src with _ | t
    · simp [into, h1, ht]
    · have htt : t ≠ dst.ty := fun he => h2 (by rw [ht, he])
      simp [into, h1, ht, htt]
  · intro h1 h2
    simp [into, h1, h2]
  · intro hv h1 h2
    have hvn : v ≠ Value.nil := isNil_false_ne_nil hv
    refine ⟨by simp [Of, hv], ?_⟩
    simp [OptRef.GetInto, OptRef.Get, OptRef.IsEmpty, OptRef.value, hvn,
      into, h1, h2]

/-- Witness for C8: a non-writable destination, a type mismatch, and a
successful round trip at concrete values. -/
theorem c8_into_spec_witness :
    into (.strV "foo") ⟨false, .tstr, .strV ""⟩ = .error .notWritable
    ∧ into (.strV "foo") ⟨true, .tint, .intV 0⟩ = .error .typeMismatch
    ∧ Of (.strV "foo") 0 = .ok (.alloc 0 (.strV "foo"))
    ∧ (OptRef.alloc 0 (.strV "foo")).GetInto ⟨true, .tstr, .strV ""⟩
        = .ok ⟨true, .tstr, .strV "foo"⟩ := by
  refine ⟨?_, ?_, ?_, ?_⟩
  · exact (c8_into_spec (.strV "foo") ⟨false, .tstr, .strV ""⟩
      Value.nil 0).1 (by decide)
  · exact (c8_into_spec (.strV "foo") ⟨true, .tint, .intV 0⟩
      Value.nil 0).2.1 (by decide) (by decide)
  · exact ((c8_into_spec (.strV "foo") ⟨true, .tstr, .strV ""⟩
      (.strV "foo") 0).2.2.2 (by decide) (by decide) (by decide)).1
  · exact ((c8_into_spec (.strV "foo") ⟨true, .tstr, .strV ""⟩
      (.strV "foo") 0).2.2.2 (by decide) (by decide) (by decide)).2

/-- A successful `Of` always yields a canonical Optional: an allocated
cell with a non-nil payload. -/
theorem of_ok_canonical {v : Value} {a : Nat} {r : OptRef}
    (h : Of v a = .ok r) : canonical r = true := by
  rcases hn : isNil v with p' | b
  · simp [Of, hn] at h
  · cases b
    · simp [Of, hn] at h
      subst h
      simp [canonical, isNil_false_ne_nil hn]
    · simp [Of, hn] at h

/-- A successful `OfNilable` always yields a canonical Optional: the
singleton, or an allocated cell with a non-nil payload. -/
theorem ofNilable_ok_canonical {v : Value} {a : Nat} {r : OptRef}
    (h : OfNilable v a = .ok r) : canonical r = true := by
  rcases hn : isNil v with p' | b
  · simp [OfNilable, hn] at h
  · cases b
    · simp [OfNilable, hn] at h
      subst h
      simp [canonical, isNil_false_ne_nil hn]
    · simp [OfNilable, hn, Empty] at h
      subst h
      simp [canonical]

/-- A successful `OfNilable` whose result is empty returned the shared
singleton. -/
theorem ofNilable_ok_empty {v : Value} {a : Nat} {r : OptRef}
    (h : OfNilable v a = .ok r) (he : r.IsEmpty = true) :
    r = .emptyOpt := by
  rcases hn : isNil v with p' | b
  · simp [OfNilable, hn] at h
  · cases b
    · simp [OfNilable, hn] at h
      subst h
      simp [OptRef.IsEmpty, OptRef.value] at he
      exact absurd he (isNil_false_ne_nil hn)
    · simp [OfNilable, hn, Empty] at h
      exact h.symm

/-- Claim C9: every empty Optional the API produces is the shared
singleton. `Empty()` is the singleton; `OfNilable` of a null-like value
returns the singleton; `Of` and `OfNilable`, when they succeed, return
canonical Optionals (the singleton or a cell with a non-nil payload);
and on canonical inputs, `Filter`, `Map` and `FlatMap` return the
singleton whenever their result is empty (for `FlatMap` the mapper must
not hand over a foreign non-nil container that itself holds a nil
payload, which no API call produces). -/
theorem c9_empty_singleton (v : Value) (o : OptRef) (p : Value → Bool)
    (f : Value → Value) (a : Nat) :
    Empty = OptRef.emptyOpt
    ∧ (isNil v = .ok true → OfNilable v a = .ok .emptyOpt)
    ∧ (∀ r, Of v a = .ok r → canonical r = true)
    ∧ (∀ r, OfNilable v a = .ok r → canonical r = true)
    ∧ (canonical o = true → (o.Filter p).IsEmpty = true →
        o.Filter p = .emptyOpt)
    ∧ (canonical o = true → ∀ r, o.Map f a = .ok r →
        r.IsEmpty = true → r = .emptyOpt)
    ∧ (canonical o = true → canonicalResult (f o.value) = true →
        ∀ r, o.FlatMap f a = .ok r → r.IsEmpty = true →
        r = .emptyOpt) := by
  refine ⟨rfl, ?_, ?_, ?_, ?_, ?_, ?_⟩
  · intro h; simp [OfNilable, h, Empty]
  · intro r hr; exact of_ok_canonical hr
  · intro r hr; exact ofNilable_ok_canonical hr
  · intro hc he
    cases o with
    | emptyOpt => simp [OptRef.Filter, OptRef.IsEmpty, OptRef.value]
    | alloc a' v' =>
      simp [canonical] at hc
      by_cases hp : p v'
      · exfalso
        simp [OptRef.Filter, OptRef.IsEmpty, OptRef.value, hp, hc] at he
      · simp [OptRef.Filter, OptRef.IsEmpty, OptRef.value, hp, hc, Empty]
  · intro hc r hm he
    cases o with
    | emptyOpt =>
      simp [OptRef.Map, OptRef.IsEmpty, OptRef.value] at hm
      exact hm.symm
    | alloc a' v' =>
      have hv' : v' ≠ Value.nil := by simpa [canonical] using hc
      simp [OptRef.Map, OptRef.IsEmpty, OptRef.value, hv'] at hm
      exact ofNilable_ok_empty hm he
  · intro hc hcr r hm he
    cases o with
    | emptyOpt =>
      simp [OptRef.FlatMap, OptRef.IsEmpty, OptRef.value] at hm
      exact hm.symm
    | alloc a' v' =>
      have hv' : v' ≠ Value.nil := by simpa [canonical] using hc
      simp only [OptRef.value] at hcr
      simp [OptRef.FlatMap, OptRef.IsEmpty, OptRef.value, hv'] at hm
      cases hfv : f v' <;> rw [hfv] at hm hcr
      case optNilV => simp at hm
      case optEmptyV =>
        simp at hm
        exact hm.symm
      case optAllocV a2 v2 =>
        simp at hm
        simp [canonicalResult] at hcr
        subst hm
        simp [OptRef.IsEmpty, OptRef.value] at he
        exact absurd he hcr
      all_goals exact ofNilable_ok_empty hm he

/-- Witness for C9: `OfNilable` of a typed nil pointer is the
singleton, and filtering away a present payload returns the
singleton. -/
theorem c9_empty_singleton_witness :
    OfNilable (.ptrV 0 none) 3 = .ok .emptyOpt
    ∧ (OptRef.alloc 0 (.strV "x")).Filter (fun _ => false)
        = .emptyOpt := by
  refine ⟨?_, ?_⟩
  · exact (c9_empty_singleton (.ptrV 0 none) .emptyOpt (fun _ => false)
      (fun w => w) 3).2.1 (by decide)
  · exact (c9_empty_singleton (.ptrV 0 none) (.alloc 0 (.strV "x"))
      (fun _ => false) (fun w => w) 3).2.2.2.2.1 (by decide) (by decide)

/-- Claim C10: `Equals` is not total. When the receiver and the
argument are distinct container instances whose payloads share one
non-comparable dynamic type — here, any two non-nil slices of one
slice type, and any two non-nil maps of one map type — the payload
interface comparison panics instead of returning a boolean. -/
theorem c10_equals_uncomparable (a1 a2 t i1 i2 : Nat) (h : a1 ≠ a2) :
    (OptRef.alloc a1 (.sliceV t (some i1))).Equals
        (.optAllocV a2 (.sliceV t (some i2))) = .error .uncomparable
    ∧ (OptRef.alloc a1 (.mapV t (some i1))).Equals
        (.optAllocV a2 (.mapV t (some i2))) = .error .uncomparable := by
  have hne : a2 ≠ a1 := fun he => h he.symm
  constructor <;>
    simp [OptRef.Equals, OptRef.toValue, OptRef.value, hne, ifaceEq,
      tyOf, comparableTy]

/-- Witness for C10 at concrete distinct addresses. -/
theorem c10_equals_uncomparable_witness :
    (OptRef.alloc 0 (.sliceV 0 (some 0))).Equals
        (.optAllocV 1 (.sliceV 0 (some 1))) = .error .uncomparable
    ∧ (OptRef.alloc 0 (.mapV 0 (some 0))).Equals
        (.optAllocV 1 (.mapV 0 (some 1))) = .error .uncomparable :=
  c10_equals_uncomparable 0 1 0 0 1 (by decide)

end OptionalGo
